import Mathlib

/-!
# displix: display enumeration, mode resolution and mode configuration

A shallow embedding of `src/displix.c`.

* Machine integers are `Int`/`Nat`; the comparison of the option argument
  with the display count (`index < displayCount`, `int` against `uint`)
  converts with an explicit `% 2^32`.
* An output parameter `T *_Nullable p` is an `Option T`: `none` is a `NULL`
  pointer, `some v` a destination currently holding `v`; the function returns
  the content of the destination when it returns.
* Calls into CoreGraphics/CoreFoundation are answered by a `Subsystem` record.
  Behaviour the C language or those libraries leave undefined (reading a
  `CFArray` outside its index space, storing past a `calloc` block, reading a
  `NULL` array) is a `Fault`, returned through `Except`.
* What the process prints, and which subsystem entry points it calls, is a
  trace of `Event`s.
-/

namespace Displix

/-! ## Data model -/

/-- The type `CGError`: a signed status code, `0` is success. -/
abbrev CGError := Int

/-- The type `CGDirectDisplayID`: the system identifier of a display. -/
abbrev CGDirectDisplayID := Nat

/-- The type `CGDisplayModeRef`: a mode handle (`ref` is its identity) with the two
attributes the program reads, `CGDisplayModeGetWidth` and
`CGDisplayModeGetHeight`. -/
structure CGDisplayModeRef where
  ref : Nat
  width : Nat
  height : Nat
  deriving DecidableEq, Repr

/-- Keys of the options dictionary handed to `CGDisplayCopyAllDisplayModes`. -/
inductive CFKey where
  | kCGDisplayShowDuplicateLowResolutionModes
  deriving DecidableEq, Repr

/-- The type `CFDictionaryRef`: the key/value pairs of the options dictionary. -/
abbrev CFDictionaryRef := List (CFKey × Bool)

/-- Undefined behaviour reached by the program. -/
inductive Fault where
  /-- A call of `CFArrayGetCount` or `CFArrayGetValueAtIndex` on a `NULL` array. -/
  | nullArray
  /-- A call `CFArrayGetValueAtIndex(array, index)` with `index` outside `0..N-1`. -/
  | arrayIndexOutOfRange (index : Int) (count : Nat)
  /-- A read `displayIDs[index]` outside the allocated block. -/
  | displayIndexOutOfRange (index : Nat) (capacity : Nat)
  /-- The call `CGGetOnlineDisplayList` stored `written` identifiers into a block
  allocated for `capacity` of them, `written > capacity`. -/
  | heapOverflow (capacity : Nat) (written : Nat)
  /-- A read through the mode handle `ref` after the array it was taken from
  has been released. -/
  | releasedHandle (ref : Nat)
  deriving DecidableEq, Repr

/-- What one call of `CGGetOnlineDisplayList` finds: the status it returns and
the displays online at that moment, in system order. -/
structure OnlineDisplays where
  status : CGError
  online : List CGDirectDisplayID

/-- The answers of the display subsystem during one run of the program. -/
structure Subsystem where
  /-- State seen by the sizing call (`dspx_GetDisplayCount`, line 242). -/
  sizing : OnlineDisplays
  /-- State seen by the retrieval call (`dspx_CopyDisplayIDs`, line 200). -/
  retrieval : OnlineDisplays
  /-- The value of `CGMainDisplayID()`. -/
  CGMainDisplayID : CGDirectDisplayID
  /-- The result of `CGDisplayCopyAllDisplayModes(display, options)`; `none` is `NULL`. -/
  CGDisplayCopyAllDisplayModes :
    CGDirectDisplayID → Option CFDictionaryRef → Option (List CGDisplayModeRef)
  /-- Status of `CGBeginDisplayConfiguration`. -/
  beginStatus : CGError
  /-- Status of `CGConfigureDisplayWithDisplayMode`. -/
  configureStatus : CGError
  /-- Status of `CGCompleteDisplayConfiguration`. -/
  completeStatus : CGError

/-! ## CoreFoundation arrays -/

/-- The call `CFArrayGetCount(theArray)`. -/
def CFArrayGetCount {α : Type} (theArray : Option (List α)) : Except Fault Nat :=
  match theArray with
  | none => .error .nullArray
  | some xs => .ok xs.length

/-- The call `CFArrayGetValueAtIndex(theArray, idx)`: defined for `0 <= idx < N` only. -/
def CFArrayGetValueAtIndex {α : Type} (theArray : Option (List α)) (idx : Int) :
    Except Fault α :=
  match theArray with
  | none => .error .nullArray
  | some xs =>
    if idx < 0 then .error (.arrayIndexOutOfRange idx xs.length)
    else
      match xs[idx.toNat]? with
      | some x => .ok x
      | none => .error (.arrayIndexOutOfRange idx xs.length)

/-! ## Mode catalog and mode resolver (lines 134-168) -/

/-- Lines 134-143: `NULL` unless duplicates are requested. -/
def dspx_CreateOptionsDictionary (showDupeLowResModes : Bool) : Option CFDictionaryRef :=
  if !showDupeLowResModes then none
  else some [(CFKey.kCGDisplayShowDuplicateLowResolutionModes, true)]

/-- Lines 145-154. -/
def dspx_CopyDisplayModes (sys : Subsystem) (displayID : CGDirectDisplayID)
    (showDupeLowResModes : Bool) : Option (List CGDisplayModeRef) :=
  sys.CGDisplayCopyAllDisplayModes displayID (dspx_CreateOptionsDictionary showDupeLowResModes)

/-- Lines 156-168, as far as the handle returned goes. `.ok none` is the `NULL`
return of line 161. The only comparison is `index >= displayModeCount` (`int`
widened to the signed `CFIndex`); there is no test of `index` against `0`.
The `CFRelease(displayModes)` of line 165, and with it the validity of the
handle after the return, is tracked by `dspx_GetDisplayModeAtIndex_lifetime`. -/
def dspx_GetDisplayModeAtIndex (sys : Subsystem) (displayID : CGDirectDisplayID)
    (showDupeLowResModes : Bool) (index : Int) : Except Fault (Option CGDisplayModeRef) := do
  let displayModes := dspx_CopyDisplayModes sys displayID showDupeLowResModes
  let displayModeCount ← CFArrayGetCount displayModes
  if index ≥ (displayModeCount : Int) then
    return none
  let displayMode ← CFArrayGetValueAtIndex displayModes index
  return some displayMode

/-! ## Display directory (lines 193-207, 238-249) -/

/-- The limit both calls pass as `maxDisplays`. -/
def UINT32_MAX : Nat := 4294967295

/-- The call `CGGetOnlineDisplayList(maxDisplays, NULL, &displayCount)`: with no buffer
the call only reports how many displays are online (a `uint32_t`, so at most
`maxDisplays <= UINT32_MAX`). -/
def CGGetOnlineDisplayList_count (st : OnlineDisplays) (maxDisplays : Nat) : CGError × Nat :=
  (st.status, min st.online.length maxDisplays)

/-- The call `CGGetOnlineDisplayList(maxDisplays, onlineDisplays, NULL)`: stores the
identifiers of the online displays, at most `maxDisplays` of them, at the start
of the caller's block `onlineDisplays`. The block has room for
`onlineDisplays.length` identifiers; storing more than that is a fault. -/
def CGGetOnlineDisplayList_fill (st : OnlineDisplays) (maxDisplays : Nat)
    (onlineDisplays : List CGDirectDisplayID) :
    Except Fault (CGError × List CGDirectDisplayID) :=
  let stored := st.online.take maxDisplays
  if stored.length > onlineDisplays.length then
    .error (.heapOverflow onlineDisplays.length stored.length)
  else
    .ok (st.status, stored ++ onlineDisplays.drop stored.length)

/-- Lines 238-249. Returns `displayCount` and the content of `*error`. -/
def dspx_GetDisplayCount (sys : Subsystem) (error : Option CGError) : Nat × Option CGError :=
  let (err, displayCount) := CGGetOnlineDisplayList_count sys.sizing UINT32_MAX
  let error := if error.isSome then some err else error
  (displayCount, error)

/-- What `dspx_CopyDisplayIDs` hands back: the block `displays` and the
contents of the two output parameters. -/
structure CopiedDisplayIDs where
  displays : List CGDirectDisplayID
  displayCount : Option Nat
  error : Option CGError
  deriving DecidableEq, Repr

/-- Lines 193-207. `calloc(count, sizeof(CGDirectDisplayID))` is a block of
`count` zeros; the retrieval call of line 200 is given `UINT32_MAX` as its
limit. -/
def dspx_CopyDisplayIDs (sys : Subsystem) (displayCount : Option Nat) (error : Option CGError) :
    Except Fault CopiedDisplayIDs := do
  let count := (dspx_GetDisplayCount sys none).1
  let displayCount := if displayCount.isSome then some count else displayCount
  let displays := List.replicate count 0
  let (err, displays) ← CGGetOnlineDisplayList_fill sys.retrieval UINT32_MAX displays
  let error := if error.isSome then some err else error
  return { displays := displays, displayCount := displayCount, error := error }

/-! ## Trace of a run -/

/-- The three calls of the configuration transaction. -/
inductive Phase where
  /-- The call `CGBeginDisplayConfiguration(&config)`. -/
  | begin
  /-- The call `CGConfigureDisplayWithDisplayMode(config, displayID, displayMode, NULL)`. -/
  | configure (displayID : CGDirectDisplayID) (displayMode : CGDisplayModeRef)
  /-- The call `CGCompleteDisplayConfiguration(config, kCGConfigureForSession)`. -/
  | complete
  deriving DecidableEq, Repr

/-- Observable steps of the program, in the order they happen. -/
inductive Event where
  /-- Line 57, stdout: `Display count: %i`. -/
  | displayCount (n : Nat)
  /-- Lines 98 and 119, stdout: `--  --  --`. -/
  | separator
  /-- Line 99, stderr: `'%d' is not a valid display mode index.` -/
  | invalidModeIndex (modeIndex : Int)
  /-- Lines 107 and 187, stdout: `[%i]  %zu  %zu`. -/
  | modeLine (index : Int) (width : Nat) (height : Nat)
  /-- Line 109: the call `dspx_ConfigureDisplayWithMode(ID, displayMode, &err)`;
  `error` is what the destination `&err` holds when the call is made. -/
  | configureDisplayWithMode (displayID : CGDirectDisplayID) (displayMode : CGDisplayModeRef)
      (error : Option CGError)
  /-- A call into the subsystem made by `dspx_ConfigureDisplayWithMode`. -/
  | phase (p : Phase)
  /-- Line 111, stderr: `Failed to set display mode: %d`. -/
  | failedToSetDisplayMode (err : CGError)
  /-- Line 121, stdout: `DISPLAY: %i`. -/
  | displayHeader (i : Nat)
  /-- Line 174, stdout: `ID: %i`. -/
  | displayID (displayID : CGDirectDisplayID)
  /-- Line 175, stdout: `Modes: %li`. -/
  | modeCount (displayModeCount : Nat)
  /-- Lines 176-178, stdout: the three lines of the table heading. -/
  | tableHeading
  deriving DecidableEq, Repr

/-! ## Display configurator (lines 209-236) -/

/-- Lines 209-236. Returns the subsystem calls made and the content of
`*error` on return. In each of the three blocks the `return` sits inside
`if (error != NULL)`, and nothing is stored when a phase returns `0`. -/
def dspx_ConfigureDisplayWithMode (sys : Subsystem) (displayID : CGDirectDisplayID)
    (displayMode : CGDisplayModeRef) (error : Option CGError) : List Phase × Option CGError :=
  Id.run do
    let mut calls := [Phase.begin]
    let mut err := sys.beginStatus
    if err ≠ 0 then
      if error.isSome then
        return (calls, some err)
    calls := calls ++ [Phase.configure displayID displayMode]
    err := sys.configureStatus
    if err ≠ 0 then
      if error.isSome then
        return (calls, some err)
    calls := calls ++ [Phase.complete]
    err := sys.completeStatus
    if err ≠ 0 then
      if error.isSome then
        return (calls, some err)
    return (calls, error)

/-! ## Mode table (lines 170-191) -/

/-- Lines 180-188: one line per mode of the array, in array order, the first
of them printed with index `m`. -/
def printModeLines : List CGDisplayModeRef → Nat → List Event
  | [], _ => []
  | mode :: rest, m => Event.modeLine m mode.width mode.height :: printModeLines rest (m + 1)

/-- Lines 170-191. -/
def dspx_PrintDisplayModes (sys : Subsystem) (displayID : CGDirectDisplayID)
    (showDupeLowResModes : Bool) : Except Fault (List Event) := do
  let displayModes := dspx_CopyDisplayModes sys displayID showDupeLowResModes
  let displayModeCount ← CFArrayGetCount displayModes
  let heading := [Event.displayID displayID, Event.modeCount displayModeCount, Event.tableHeading]
  return heading ++ printModeLines (displayModes.getD []) 0

/-! ## Session controller (lines 41-129) -/

/-- Lines 41-45. -/
structure displix_settings where
  ID : CGDirectDisplayID
  modeIndex : Int
  lowRes : Bool
  deriving DecidableEq, Repr

/-- What `getopt(argc, argv, "d:m:a")` returns for one option, the argument of
`-d` and `-m` already converted by `atoi`. `other` is any return of `getopt`
the `switch` has no case for. -/
inductive Opt where
  | a
  | d (optarg : Int)
  | m (optarg : Int)
  | other
  deriving DecidableEq, Repr

/-- Conversion of an `int` to `unsigned int`, applied to `index` by the
comparison `index < displayCount` of line 79. -/
def toUInt32 (i : Int) : Nat := (i % 2 ^ 32).toNat

/-- The array read `displayIDs[i]`. -/
def readDisplayID (displayIDs : List CGDirectDisplayID) (i : Nat) :
    Except Fault CGDirectDisplayID :=
  match displayIDs[i]? with
  | some d => .ok d
  | none => .error (.displayIndexOutOfRange i displayIDs.length)

/-- Lines 72-89: the body of the `switch` for one option. -/
def processOption (displayIDs : List CGDirectDisplayID) (displayCount : Nat)
    (options : displix_settings) (opt : Opt) : Except Fault displix_settings :=
  match opt with
  | .a => .ok { options with lowRes := true }
  | .d optarg =>
    let index := optarg
    if index > 0 && toUInt32 index < displayCount then do
      let d ← readDisplayID displayIDs index.toNat
      .ok { options with ID := d }
    else .ok options
  | .m optarg => .ok { options with modeIndex := optarg }
  | .other => .ok options

/-- Lines 71-90: the `getopt` loop. -/
def parseOptions (displayIDs : List CGDirectDisplayID) (displayCount : Nat)
    (options : displix_settings) : List Opt → Except Fault displix_settings
  | [] => .ok options
  | opt :: rest => do
    let options ← processOption displayIDs displayCount options opt
    parseOptions displayIDs displayCount options rest

/-- Lines 118-124: the loop `for (i = 0; i < displayCount; i++)`, entered at
`i` with `remaining = displayCount - i` iterations to go. The counter `i` runs
from `0` upwards and stays at or below `displayCount`, so it is a `Nat` here. -/
def printDisplayModesLoop (sys : Subsystem) (displayIDs : List CGDirectDisplayID)
    (lowRes : Bool) : (remaining : Nat) → (i : Nat) → Except Fault (List Event)
  | 0, _ => .ok []
  | remaining + 1, i => do
    let displayID ← readDisplayID displayIDs i
    let table ← dspx_PrintDisplayModes sys displayID lowRes
    let rest ← printDisplayModesLoop sys displayIDs lowRes remaining (i + 1)
    .ok ([Event.separator, Event.displayHeader i] ++ table ++ rest)

/-- Lines 66-68: `{ CGMainDisplayID(), -1 }`; the member left out, `lowRes`,
is zero-initialised. -/
def defaultSettings (mainDisplayID : CGDirectDisplayID) : displix_settings :=
  { ID := mainDisplayID, modeIndex := -1, lowRes := false }

/-- Lines 51-129. Returns the trace of the run and the exit status (the
argument of `exit` at line 60, otherwise the `return 0` of line 128). Mode
handles are plain values here: which calls are made, with which handle, and
what is printed if the handle can be read. Whether the handle may still be
read at lines 104-105 is the business of `main_lifetime`. -/
def main (sys : Subsystem) (argv : List Opt) : Except Fault (List Event × Int) := do
  -- `&displayCount` and `&err` are both non-`NULL`; `dspx_CopyDisplayIDs`
  -- stores into both whatever they held
  let copied ← dspx_CopyDisplayIDs sys (some 0) (some 0)
  let displayIDs := copied.displays
  let displayCount := copied.displayCount.getD 0
  let err := copied.error.getD 0
  let trace := [Event.displayCount displayCount]
  if err ≠ 0 then
    return (trace, err)
  let options := defaultSettings sys.CGMainDisplayID
  let options ← parseOptions displayIDs displayCount options argv
  if options.modeIndex ≥ 0 then
    match ← dspx_GetDisplayModeAtIndex sys options.ID options.lowRes options.modeIndex with
    | none =>
      -- `goto PrintDisplayModes`
      let listing ← printDisplayModesLoop sys displayIDs options.lowRes displayCount 0
      return (trace ++ [Event.separator, Event.invalidModeIndex options.modeIndex] ++ listing, 0)
    | some displayMode =>
      let line := Event.modeLine options.modeIndex displayMode.width displayMode.height
      let call := Event.configureDisplayWithMode options.ID displayMode (some err)
      let (calls, error) := dspx_ConfigureDisplayWithMode sys options.ID displayMode (some err)
      let err := error.getD err
      let failed := if err ≠ 0 then [Event.failedToSetDisplayMode err] else []
      -- `goto FreeMemoryAndExit`
      return (trace ++ [line, call] ++ calls.map Event.phase ++ failed, 0)
  else
    let listing ← printDisplayModesLoop sys displayIDs options.lowRes displayCount 0
    return (trace ++ listing, 0)

/-! ## Lifetime of mode handles

A mode handle read out of a catalog array by `CFArrayGetValueAtIndex` is
borrowed from the array: the array owns its modes and the handle is valid only
until the array is released (the ownership rule of Core Foundation;
sections 3 and 4.2 of the specification). The definitions below repeat
lines 156-168 and lines 51-129 with that lifetime tracked. -/

/-- A mode handle held by the program, with the state of the array it was
read from. -/
structure BorrowedMode where
  mode : CGDisplayModeRef
  /-- The owning array has been passed to `CFRelease`. -/
  ownerReleased : Bool
  deriving DecidableEq, Repr

/-- The call `CGDisplayModeGetWidth(mode)`: defined while the handle is valid. -/
def CGDisplayModeGetWidth (h : BorrowedMode) : Except Fault Nat :=
  if h.ownerReleased then .error (.releasedHandle h.mode.ref) else .ok h.mode.width

/-- The call `CGDisplayModeGetHeight(mode)`: defined while the handle is valid. -/
def CGDisplayModeGetHeight (h : BorrowedMode) : Except Fault Nat :=
  if h.ownerReleased then .error (.releasedHandle h.mode.ref) else .ok h.mode.height

/-- Lines 156-168 with the lifetime of the array: line 164 borrows the handle
from `displayModes`, line 165 releases `displayModes`, line 167 returns the
handle. (On the `NULL` return of line 161 the array is not released.) -/
def dspx_GetDisplayModeAtIndex_lifetime (sys : Subsystem) (displayID : CGDirectDisplayID)
    (showDupeLowResModes : Bool) (index : Int) : Except Fault (Option BorrowedMode) := do
  let displayModes := dspx_CopyDisplayModes sys displayID showDupeLowResModes
  let displayModeCount ← CFArrayGetCount displayModes
  if index ≥ (displayModeCount : Int) then
    return none
  let displayMode ← CFArrayGetValueAtIndex displayModes index
  let borrowed : BorrowedMode := { mode := displayMode, ownerReleased := false }
  -- `CFRelease(displayModes)`
  let borrowed := { borrowed with ownerReleased := true }
  return some borrowed

/-- Lines 51-129 with the lifetime of the mode handle: as `main`, except that
lines 104-105 read width and height through the handle returned by
`dspx_GetDisplayModeAtIndex`. -/
def main_lifetime (sys : Subsystem) (argv : List Opt) : Except Fault (List Event × Int) := do
  let copied ← dspx_CopyDisplayIDs sys (some 0) (some 0)
  let displayIDs := copied.displays
  let displayCount := copied.displayCount.getD 0
  let err := copied.error.getD 0
  let trace := [Event.displayCount displayCount]
  if err ≠ 0 then
    return (trace, err)
  let options := defaultSettings sys.CGMainDisplayID
  let options ← parseOptions displayIDs displayCount options argv
  if options.modeIndex ≥ 0 then
    match ← dspx_GetDisplayModeAtIndex_lifetime sys options.ID options.lowRes
        options.modeIndex with
    | none =>
      let listing ← printDisplayModesLoop sys displayIDs options.lowRes displayCount 0
      return (trace ++ [Event.separator, Event.invalidModeIndex options.modeIndex] ++ listing, 0)
    | some displayMode =>
      let width ← CGDisplayModeGetWidth displayMode
      let height ← CGDisplayModeGetHeight displayMode
      let line := Event.modeLine options.modeIndex width height
      let call := Event.configureDisplayWithMode options.ID displayMode.mode (some err)
      let (calls, error) :=
        dspx_ConfigureDisplayWithMode sys options.ID displayMode.mode (some err)
      let err := error.getD err
      let failed := if err ≠ 0 then [Event.failedToSetDisplayMode err] else []
      return (trace ++ [line, call] ++ calls.map Event.phase ++ failed, 0)
  else
    let listing ← printDisplayModesLoop sys displayIDs options.lowRes displayCount 0
    return (trace ++ listing, 0)

/-! ## Concrete subsystems used in the examples -/

/-- The two modes of the scenario of the specification. -/
def exampleModes : List CGDisplayModeRef :=
  [{ ref := 100, width := 1920, height := 1080 }, { ref := 101, width := 1280, height := 720 }]

/-- One display, identifier `7`, with `exampleModes`; every call succeeds. -/
def exampleSys : Subsystem where
  sizing := { status := 0, online := [7] }
  retrieval := { status := 0, online := [7] }
  CGMainDisplayID := 7
  CGDisplayCopyAllDisplayModes := fun _ _ => some exampleModes
  beginStatus := 0
  configureStatus := 0
  completeStatus := 0

/-- As `exampleSys`, but a second display, `8`, comes online between the sizing
call and the retrieval call. -/
def hotPlugSys : Subsystem :=
  { exampleSys with retrieval := { status := 0, online := [7, 8] } }

/-- As `exampleSys`, but `CGBeginDisplayConfiguration` returns `1001`. -/
def beginFailsSys : Subsystem :=
  { exampleSys with beginStatus := 1001 }

/-- The run of `main` on `beginFailsSys` with `-m 0`. -/
def beginFailsTrace : List Event :=
  [Event.displayCount 1, Event.modeLine 0 1920 1080,
    Event.configureDisplayWithMode 7 { ref := 100, width := 1920, height := 1080 } (some 0),
    Event.phase Phase.begin, Event.failedToSetDisplayMode 1001]

/-! ## Vocabulary of the properties -/

/-- The code of the first phase, in the order Begin, Configure, Commit, that
returned a non-zero code; `none` when all three returned `0`. -/
def firstFailingCode (sys : Subsystem) : Option CGError :=
  [sys.beginStatus, sys.configureStatus, sys.completeStatus].find? (fun code => code ≠ 0)

/-- The mode table of every display of `displayIDs`, in order, the first of
them carrying ordinal `i`; `catalog d` is the catalog of display `d`. -/
def listingFrom (catalog : CGDirectDisplayID → List CGDisplayModeRef) :
    List CGDirectDisplayID → Nat → List Event
  | [], _ => []
  | d :: rest, i =>
    [Event.separator, Event.displayHeader i, Event.displayID d,
      Event.modeCount (catalog d).length, Event.tableHeading]
      ++ printModeLines (catalog d) 0 ++ listingFrom catalog rest (i + 1)

/-- The event is the call of `dspx_ConfigureDisplayWithMode` or one of the
subsystem calls made inside it. -/
def Event.isConfigureCall : Event → Bool
  | .configureDisplayWithMode _ _ _ => true
  | .phase _ => true
  | _ => false

/-- The event is the diagnostic `Failed to set display mode`. -/
def Event.isFailure : Event → Bool
  | .failedToSetDisplayMode _ => true
  | _ => false

theorem getDisplayModeAtIndex_ge (sys : Subsystem) (displayID : CGDirectDisplayID)
    (flag : Bool) (catalog : List CGDisplayModeRef) (i : Int)
    (hcat : dspx_CopyDisplayModes sys displayID flag = some catalog)
    (hi : (catalog.length : Int) ≤ i) :
    dspx_GetDisplayModeAtIndex sys displayID flag i = .ok none := by
  simp only [dspx_GetDisplayModeAtIndex, hcat, CFArrayGetCount]
  show (if i ≥ (catalog.length : Int) then _ else _) = _
  rw [if_pos hi]
  rfl

theorem getDisplayModeAtIndex_lt (sys : Subsystem) (displayID : CGDirectDisplayID)
    (flag : Bool) (catalog : List CGDisplayModeRef) (n : Nat)
    (hcat : dspx_CopyDisplayModes sys displayID flag = some catalog)
    (hn : n < catalog.length) :
    dspx_GetDisplayModeAtIndex sys displayID flag (n : Int)
      = .ok (some (catalog.get ⟨n, hn⟩)) := by
  simp only [dspx_GetDisplayModeAtIndex, hcat, CFArrayGetCount]
  show (if (n : Int) ≥ (catalog.length : Int) then _ else _) = _
  have h1 : ¬ ((n : Int) ≥ (catalog.length : Int)) := by omega
  rw [if_neg h1]
  have h2 : ¬ ((n : Int) < 0) := by omega
  simp [CFArrayGetValueAtIndex, h2, List.getElem?_eq_getElem hn]

theorem getDisplayModeAtIndex_neg (sys : Subsystem) (displayID : CGDirectDisplayID)
    (flag : Bool) (catalog : List CGDisplayModeRef) (i : Int)
    (hcat : dspx_CopyDisplayModes sys displayID flag = some catalog)
    (hi : i < 0) :
    dspx_GetDisplayModeAtIndex sys displayID flag i
      = .error (.arrayIndexOutOfRange i catalog.length) := by
  simp only [dspx_GetDisplayModeAtIndex, hcat, CFArrayGetCount]
  show (if i ≥ (catalog.length : Int) then _ else _) = _
  have h1 : ¬ (i ≥ (catalog.length : Int)) := by omega
  rw [if_neg h1]
  simp [CFArrayGetValueAtIndex, hi]

/-! ## Mode resolver: claims -/

/-- C1: for a catalog the subsystem returned, `dspx_GetDisplayModeAtIndex`
yields `NULL` for every index `i` with `i = count` or `i > count`, and for
every index `n` with `0 <= n < count` it yields the mode at position `n` of
the catalog fetched by that call. -/
theorem getDisplayModeAtIndex_bounds (sys : Subsystem) (displayID : CGDirectDisplayID)
    (flag : Bool) (catalog : List CGDisplayModeRef)
    (hcat : dspx_CopyDisplayModes sys displayID flag = some catalog) :
    (∀ i : Int, (i = catalog.length ∨ i > catalog.length) →
        dspx_GetDisplayModeAtIndex sys displayID flag i = .ok none) ∧
    (∀ (n : Nat) (hn : n < catalog.length),
        dspx_GetDisplayModeAtIndex sys displayID flag (n : Int)
          = .ok (some (catalog.get ⟨n, hn⟩))) := by
  refine ⟨fun i hi => ?_, fun n hn => ?_⟩
  · exact getDisplayModeAtIndex_ge sys displayID flag catalog i hcat (by omega)
  · exact getDisplayModeAtIndex_lt sys displayID flag catalog n hcat hn

/-- Witness of C1 on the two-mode catalog: index 2 and index 5 give `NULL`,
index 1 gives the 1280 x 720 mode. -/
theorem getDisplayModeAtIndex_bounds_witness :
    dspx_CopyDisplayModes exampleSys 7 false = some exampleModes ∧
    dspx_GetDisplayModeAtIndex exampleSys 7 false 2 = .ok none ∧
    dspx_GetDisplayModeAtIndex exampleSys 7 false 5 = .ok none ∧
    dspx_GetDisplayModeAtIndex exampleSys 7 false 1
      = .ok (some { ref := 101, width := 1280, height := 720 }) :=
  have h := getDisplayModeAtIndex_bounds exampleSys 7 false exampleModes rfl
  ⟨rfl, h.1 2 (Or.inl rfl), h.1 5 (Or.inr (by decide)), h.2 1 (by decide)⟩

/-- C5, evaluated at index `-1` on the two-mode catalog: the call does not
return `NULL`; it passes `-1` on to `CFArrayGetValueAtIndex`, outside the index
space of the array. -/
theorem getDisplayModeAtIndex_negative_index :
    dspx_GetDisplayModeAtIndex exampleSys 7 false (-1)
      = .error (.arrayIndexOutOfRange (-1) 2) ∧
    dspx_GetDisplayModeAtIndex exampleSys 7 false (-1) ≠ .ok none := by
  constructor
  · exact getDisplayModeAtIndex_neg exampleSys 7 false exampleModes (-1) rfl (by decide)
  · rw [getDisplayModeAtIndex_neg exampleSys 7 false exampleModes (-1) rfl (by decide)]
    intro h
    cases h

/-! ## Display configurator -/

/-- With an error destination supplied, the destination ends up holding the
code of the first failing phase, or what it held before when no phase failed. -/
theorem configure_destination (sys : Subsystem) (displayID : CGDirectDisplayID)
    (displayMode : CGDisplayModeRef) (v : CGError) :
    (dspx_ConfigureDisplayWithMode sys displayID displayMode (some v)).2
      = some ((firstFailingCode sys).getD v) := by
  by_cases hb : sys.beginStatus = 0 <;> by_cases hc : sys.configureStatus = 0 <;>
    by_cases hk : sys.completeStatus = 0 <;>
    simp [dspx_ConfigureDisplayWithMode, firstFailingCode, List.find?, hb, hc, hk, Id.run]

/-- With an error destination supplied, the phases executed are those up to
and including the first one that fails. -/
theorem configure_phases_with_destination (sys : Subsystem) (displayID : CGDirectDisplayID)
    (displayMode : CGDisplayModeRef) (v : CGError) :
    (dspx_ConfigureDisplayWithMode sys displayID displayMode (some v)).1
      = if sys.beginStatus ≠ 0 then [Phase.begin]
        else if sys.configureStatus ≠ 0 then [Phase.begin, Phase.configure displayID displayMode]
        else [Phase.begin, Phase.configure displayID displayMode, Phase.complete] := by
  by_cases hb : sys.beginStatus = 0 <;> by_cases hc : sys.configureStatus = 0 <;>
    by_cases hk : sys.completeStatus = 0 <;>
    simp [dspx_ConfigureDisplayWithMode, hb, hc, hk, Id.run]

/-- With no error destination, all three phases are executed whatever they
return. -/
theorem configure_phases_without_destination (sys : Subsystem) (displayID : CGDirectDisplayID)
    (displayMode : CGDisplayModeRef) :
    dspx_ConfigureDisplayWithMode sys displayID displayMode none
      = ([Phase.begin, Phase.configure displayID displayMode, Phase.complete], none) := by
  by_cases hb : sys.beginStatus = 0 <;> by_cases hc : sys.configureStatus = 0 <;>
    by_cases hk : sys.completeStatus = 0 <;>
    simp [dspx_ConfigureDisplayWithMode, hb, hc, hk, Id.run]

/-- The code `firstFailingCode` names is never `0`. -/
theorem firstFailingCode_ne_zero (sys : Subsystem) (c : CGError)
    (h : firstFailingCode sys = some c) : c ≠ 0 := by
  have := List.find?_some h
  simpa using this

/-- C2, evaluated with no error destination (`error == NULL`) and a Begin
phase returning `1001`: the Configure and Commit phases are still executed. -/
theorem configure_null_destination_runs_on :
    dspx_ConfigureDisplayWithMode beginFailsSys 7
        { ref := 101, width := 1280, height := 720 } none
      = ([Phase.begin, Phase.configure 7 { ref := 101, width := 1280, height := 720 },
          Phase.complete], none) := by
  decide

/-- C3, evaluated with all three phases returning `0` and a destination
holding `7`: the destination still holds `7` on return. -/
theorem configure_success_keeps_destination :
    dspx_ConfigureDisplayWithMode exampleSys 7 { ref := 101, width := 1280, height := 720 }
        (some 7)
      = ([Phase.begin, Phase.configure 7 { ref := 101, width := 1280, height := 720 },
          Phase.complete], some 7) := by
  decide

/-! ## Display directory -/

/-- The block `dspx_CopyDisplayIDs` returns has as many entries as the count
it reports, and both destinations are stored into. -/
theorem copyDisplayIDs_ok (sys : Subsystem) (c0 : Nat) (e0 : CGError) (r : CopiedDisplayIDs)
    (h : dspx_CopyDisplayIDs sys (some c0) (some e0) = .ok r) :
    r.displayCount = some r.displays.length ∧ ∃ e, r.error = some e := by
  unfold dspx_CopyDisplayIDs at h
  simp only [bind, Except.bind, CGGetOnlineDisplayList_fill] at h
  split at h
  · cases h
  · rename_i v hv
    split at hv
    · cases hv
    · rename_i hle
      cases hv
      simp only [pure, Except.pure, Except.ok.injEq] at h
      subst h
      simp at hle ⊢
      simp [dspx_GetDisplayCount, CGGetOnlineDisplayList_count] at hle ⊢
      omega

/-- Whenever more displays are online at the retrieval call than the sizing
call counted, the retrieval call stores past the end of the block. -/
theorem copyDisplayIDs_overflows (sys : Subsystem) (c0 : Option Nat) (e0 : Option CGError)
    (hmore : sys.sizing.online.length < sys.retrieval.online.length)
    (hmax : sys.retrieval.online.length ≤ UINT32_MAX) :
    dspx_CopyDisplayIDs sys c0 e0
      = .error (.heapOverflow sys.sizing.online.length sys.retrieval.online.length) := by
  have h1 : min sys.sizing.online.length UINT32_MAX = sys.sizing.online.length := by omega
  have h2 : min UINT32_MAX sys.retrieval.online.length = sys.retrieval.online.length := by
    omega
  simp [dspx_CopyDisplayIDs, dspx_GetDisplayCount, CGGetOnlineDisplayList_count,
    CGGetOnlineDisplayList_fill, bind, Except.bind, h1, h2, hmore]

/-- C4, evaluated with one display online at the sizing call and two at the
retrieval call: the block is allocated for one identifier and the retrieval
call, limited by `UINT32_MAX` only, stores two. -/
theorem copyDisplayIDs_overflow :
    (dspx_GetDisplayCount hotPlugSys none).1 = 1 ∧
    dspx_CopyDisplayIDs hotPlugSys (some 0) (some 0) = .error (.heapOverflow 1 2) :=
  ⟨rfl, rfl⟩

/-! ## Session controller: display selection -/

/-- An `int` that is positive converts to `unsigned int` unchanged. -/
theorem toUInt32_of_pos (n : Int) (h0 : 0 < n) (h1 : n < 2 ^ 31) :
    toUInt32 n = n.toNat := by
  unfold toUInt32
  have h : n % 2 ^ 32 = n := Int.emod_eq_of_lt (by omega) (by omega)
  rw [h]

/-- C6: from the default settings, `-d n` selects the identifier at position
`n` of the enumerated list when `0 < n < deviceCount`, and otherwise leaves
the primary display selected; in neither case is the list read out of range
(the result is never a fault). Here `n` is any integer below `2^31`, which
every value of type `int` is. -/
theorem processOption_d (displayIDs : List CGDirectDisplayID) (primary : CGDirectDisplayID)
    (n : Int) (hmax : n < 2 ^ 31) :
    (∀ h : n.toNat < displayIDs.length, 0 < n →
        processOption displayIDs displayIDs.length (defaultSettings primary) (.d n)
          = .ok { defaultSettings primary with ID := displayIDs.get ⟨n.toNat, h⟩ }) ∧
    (¬ (0 < n ∧ n < displayIDs.length) →
        processOption displayIDs displayIDs.length (defaultSettings primary) (.d n)
          = .ok (defaultSettings primary)) := by
  constructor
  · intro h hpos
    have hconv := toUInt32_of_pos n hpos hmax
    simp [processOption, hpos, hconv, h, readDisplayID, List.getElem?_eq_getElem h]
    rfl
  · intro hnot
    by_cases hpos : 0 < n
    · have hconv := toUInt32_of_pos n hpos hmax
      have hge : ¬ (n.toNat < displayIDs.length) := by omega
      simp [processOption, hpos, hconv, hge]
    · simp [processOption, hpos]

/-- Witness of C6 on the list `[7, 8, 9]` with primary display `7`: `-d 2`
selects `9`; `-d 0`, `-d -1` and `-d 3` leave `7` selected. -/
theorem processOption_d_witness :
    processOption [7, 8, 9] 3 (defaultSettings 7) (.d 2)
      = .ok { ID := 9, modeIndex := -1, lowRes := false } ∧
    processOption [7, 8, 9] 3 (defaultSettings 7) (.d 0) = .ok (defaultSettings 7) ∧
    processOption [7, 8, 9] 3 (defaultSettings 7) (.d (-1)) = .ok (defaultSettings 7) ∧
    processOption [7, 8, 9] 3 (defaultSettings 7) (.d 3) = .ok (defaultSettings 7) :=
  ⟨(processOption_d [7, 8, 9] 7 2 (by decide)).1 (by decide) (by decide),
   (processOption_d [7, 8, 9] 7 0 (by decide)).2 (by decide),
   (processOption_d [7, 8, 9] 7 (-1) (by decide)).2 (by decide),
   (processOption_d [7, 8, 9] 7 3 (by decide)).2 (by decide)⟩

/-! ## Session controller: the listing loop -/

theorem printModeLines_isConfigureCall (modes : List CGDisplayModeRef) (m : Nat) :
    ∀ ev ∈ printModeLines modes m, ev.isConfigureCall = false := by
  induction modes generalizing m with
  | nil => intro ev h; cases h
  | cons mode rest ih =>
    intro ev h
    simp only [printModeLines, List.mem_cons] at h
    rcases h with h | h
    · subst h; rfl
    · exact ih (m + 1) ev h

theorem printDisplayModes_isConfigureCall (sys : Subsystem) (d : CGDirectDisplayID)
    (lowRes : Bool) (table : List Event)
    (h : dspx_PrintDisplayModes sys d lowRes = .ok table) :
    ∀ ev ∈ table, ev.isConfigureCall = false := by
  unfold dspx_PrintDisplayModes at h
  cases hc : dspx_CopyDisplayModes sys d lowRes with
  | none => simp [hc, CFArrayGetCount, bind, Except.bind] at h
  | some catalog =>
    simp only [hc, CFArrayGetCount, bind, Except.bind, pure, Except.pure, Except.ok.injEq] at h
    subst h
    intro ev hev
    simp only [List.mem_append, List.mem_cons, List.mem_nil_iff, or_false] at hev
    rcases hev with (h | h | h) | h
    · subst h; rfl
    · subst h; rfl
    · subst h; rfl
    · exact printModeLines_isConfigureCall _ _ ev h

theorem printDisplayModesLoop_isConfigureCall (sys : Subsystem)
    (displayIDs : List CGDirectDisplayID) (lowRes : Bool) (remaining : Nat) :
    ∀ (i : Nat) (listing : List Event),
      printDisplayModesLoop sys displayIDs lowRes remaining i = .ok listing →
      ∀ ev ∈ listing, ev.isConfigureCall = false := by
  induction remaining with
  | zero =>
    intro i listing h ev hev
    simp only [printDisplayModesLoop, Except.ok.injEq] at h
    subst h
    cases hev
  | succ k ih =>
    intro i listing h ev hev
    simp only [printDisplayModesLoop, bind, Except.bind] at h
    split at h
    · cases h
    · split at h
      · cases h
      · rename_i table htable
        split at h
        · cases h
        · rename_i rest hrest
          simp only [Except.ok.injEq] at h
          subst h
          simp only [List.mem_append, List.mem_cons, List.mem_nil_iff, or_false] at hev
          rcases hev with ((h | h) | h) | h
          · subst h; rfl
          · subst h; rfl
          · exact printDisplayModes_isConfigureCall sys _ lowRes table htable ev h
          · exact ih (i + 1) rest hrest ev h

theorem readDisplayID_append (pre rest : List CGDirectDisplayID) (d : CGDirectDisplayID) :
    readDisplayID (pre ++ d :: rest) pre.length = .ok d := by
  have h : (pre ++ d :: rest)[pre.length]? = some d := by
    rw [List.getElem?_append_right (Nat.le_refl _)]
    simp
  simp only [readDisplayID, h]

theorem printDisplayModes_of_catalog (sys : Subsystem) (d : CGDirectDisplayID) (lowRes : Bool)
    (catalog : List CGDisplayModeRef)
    (hcat : dspx_CopyDisplayModes sys d lowRes = some catalog) :
    dspx_PrintDisplayModes sys d lowRes
      = .ok ([Event.displayID d, Event.modeCount catalog.length, Event.tableHeading]
          ++ printModeLines catalog 0) := by
  simp [dspx_PrintDisplayModes, hcat, CFArrayGetCount, bind, Except.bind, pure, Except.pure]

theorem printDisplayModesLoop_listing (sys : Subsystem) (lowRes : Bool)
    (catalog : CGDirectDisplayID → List CGDisplayModeRef) (ds : List CGDirectDisplayID) :
    ∀ (pre : List CGDirectDisplayID),
      (∀ d ∈ ds, dspx_CopyDisplayModes sys d lowRes = some (catalog d)) →
      printDisplayModesLoop sys (pre ++ ds) lowRes ds.length pre.length
        = .ok (listingFrom catalog ds pre.length) := by
  induction ds with
  | nil => intro pre _; rfl
  | cons d rest ih =>
    intro pre hall
    have hrest := ih (pre ++ [d]) (fun x hx => hall x (List.mem_cons_of_mem d hx))
    simp only [List.append_assoc, List.singleton_append, List.length_append,
      List.length_singleton] at hrest
    simp only [List.length_cons, printDisplayModesLoop, bind, Except.bind,
      readDisplayID_append,
      printDisplayModes_of_catalog sys d lowRes (catalog d) (hall d (List.mem_cons_self d rest)),
      hrest, listingFrom]
    simp

/-! ## Session controller: the three paths of `main` -/

theorem main_invalid_index (sys : Subsystem) (argv : List Opt) (ids : List CGDirectDisplayID)
    (count : Nat) (opts : displix_settings) (catalog : List CGDisplayModeRef)
    (henum : dspx_CopyDisplayIDs sys (some 0) (some 0)
      = .ok { displays := ids, displayCount := some count, error := some 0 })
    (hparse : parseOptions ids count (defaultSettings sys.CGMainDisplayID) argv = .ok opts)
    (hcat : dspx_CopyDisplayModes sys opts.ID opts.lowRes = some catalog)
    (hge : (catalog.length : Int) ≤ opts.modeIndex) :
    main sys argv
      = (printDisplayModesLoop sys ids opts.lowRes count 0).map
          (fun listing => ([Event.displayCount count, Event.separator,
            Event.invalidModeIndex opts.modeIndex] ++ listing, 0)) := by
  have h : opts.modeIndex ≥ 0 := by omega
  simp only [main, henum, bind, Except.bind, Option.getD_some, ne_eq, not_true_eq_false,
    if_false, hparse, h, if_true,
    getDisplayModeAtIndex_ge sys opts.ID opts.lowRes catalog opts.modeIndex hcat hge]
  cases printDisplayModesLoop sys ids opts.lowRes count 0 <;> rfl

theorem filter_phase_events (p : Event → Bool) (hp : ∀ q, p (Event.phase q) = false)
    (calls : List Phase) : (calls.map Event.phase).filter p = [] := by
  induction calls with
  | nil => rfl
  | cons q rest ih => simp [List.filter, hp, ih]

theorem firstFailingCode_eq_none_iff (sys : Subsystem) :
    firstFailingCode sys = none
      ↔ sys.beginStatus = 0 ∧ sys.configureStatus = 0 ∧ sys.completeStatus = 0 := by
  simp [firstFailingCode]

theorem main_configure_error_entry (sys : Subsystem) (argv : List Opt) (trace : List Event)
    (code : Int) (d : CGDirectDisplayID) (m : CGDisplayModeRef) (e : Option CGError)
    (hrun : main sys argv = .ok (trace, code))
    (hcall : Event.configureDisplayWithMode d m e ∈ trace) :
    e = some 0 ∧
    trace.filter Event.isFailure
      = (match firstFailingCode sys with
         | none => []
         | some c => [Event.failedToSetDisplayMode c]) := by
  unfold main at hrun
  cases hE : dspx_CopyDisplayIDs sys (some 0) (some 0) with
  | error f => simp [hE, bind, Except.bind] at hrun
  | ok r =>
    simp only [hE, bind, Except.bind] at hrun
    by_cases herr : r.error.getD 0 = 0
    · simp only [herr, ne_eq, not_true_eq_false, if_false] at hrun
      cases hP : parseOptions r.displays (r.displayCount.getD 0)
          (defaultSettings sys.CGMainDisplayID) argv with
      | error f => simp [hP, pure, Except.pure] at hrun
      | ok opts =>
        simp only [hP] at hrun
        by_cases hidx : opts.modeIndex ≥ 0
        · simp only [hidx, if_true] at hrun
          cases hG : dspx_GetDisplayModeAtIndex sys opts.ID opts.lowRes opts.modeIndex with
          | error f => simp [hG, pure, Except.pure] at hrun
          | ok found =>
            simp only [hG] at hrun
            cases found with
            | none =>
              simp only at hrun
              cases hL : printDisplayModesLoop sys r.displays opts.lowRes
                  (r.displayCount.getD 0) 0 with
              | error f => simp [hL, pure, Except.pure] at hrun
              | ok listing =>
                simp only [hL, pure, Except.pure, Except.ok.injEq, Prod.mk.injEq] at hrun
                have hno := printDisplayModesLoop_isConfigureCall sys _ _ _ _ _ hL
                rw [← hrun.1] at hcall
                simp only [List.mem_append, List.mem_cons, List.mem_nil_iff, or_false] at hcall
                rcases hcall with (h | h | h) | h
                · cases h
                · cases h
                · cases h
                · have := hno _ h
                  simp [Event.isConfigureCall] at this
            | some mode =>
              simp only [pure, Except.pure, Except.ok.injEq, Prod.mk.injEq] at hrun
              have hdest := configure_destination sys opts.ID mode 0
              rw [← hrun.1] at hcall ⊢
              simp only [hdest, Option.getD_some] at hcall ⊢
              constructor
              · simp only [List.mem_append, List.mem_cons, List.mem_nil_iff, or_false,
                  List.mem_map] at hcall
                rcases hcall with ((h | h | h) | ⟨q, _, h⟩) | h
                · cases h
                · cases h
                · cases h; rfl
                · cases h
                · split at h
                  · simp at h
                  · cases h
              · simp only [List.filter_append,
                  filter_phase_events Event.isFailure (fun _ => rfl)]
                cases hf : firstFailingCode sys with
                | none => simp [List.filter, Event.isFailure]
                | some c =>
                  have hc := firstFailingCode_ne_zero sys c hf
                  simp [List.filter, Event.isFailure, hc]
        · simp only [hidx, if_false] at hrun
          cases hL : printDisplayModesLoop sys r.displays opts.lowRes
              (r.displayCount.getD 0) 0 with
          | error f => simp [hL, pure, Except.pure] at hrun
          | ok listing =>
            simp only [hL, pure, Except.pure, Except.ok.injEq, Prod.mk.injEq] at hrun
            have hno := printDisplayModesLoop_isConfigureCall sys _ _ _ _ _ hL
            rw [← hrun.1] at hcall
            simp only [List.mem_append, List.mem_cons, List.mem_nil_iff, or_false] at hcall
            rcases hcall with h | h
            · cases h
            · have := hno _ h
              simp [Event.isConfigureCall] at this
    · simp only [herr, ne_eq, not_false_eq_true, if_true, pure, Except.pure, Except.ok.injEq,
        Prod.mk.injEq] at hrun
      rw [← hrun.1] at hcall
      simp at hcall

/-! ## Session controller: claims -/

/-- C8: when the requested mode index is at or above the length of the
selected display's catalog, the run emits the invalid-index diagnostic, makes
no call of `dspx_ConfigureDisplayWithMode` (nor of any transaction phase),
prints the mode table of every enumerated display in ordinal order, and exits
with status 0. `catalogOf d` is the catalog the subsystem returns for `d`. -/
theorem main_invalid_index_lists_all (sys : Subsystem) (argv : List Opt)
    (ids : List CGDirectDisplayID) (count : Nat) (opts : displix_settings)
    (catalog : List CGDisplayModeRef) (catalogOf : CGDirectDisplayID → List CGDisplayModeRef)
    (henum : dspx_CopyDisplayIDs sys (some 0) (some 0)
      = .ok { displays := ids, displayCount := some count, error := some 0 })
    (hparse : parseOptions ids count (defaultSettings sys.CGMainDisplayID) argv = .ok opts)
    (hcat : dspx_CopyDisplayModes sys opts.ID opts.lowRes = some catalog)
    (hge : (catalog.length : Int) ≤ opts.modeIndex)
    (hall : ∀ d ∈ ids, dspx_CopyDisplayModes sys d opts.lowRes = some (catalogOf d)) :
    main sys argv
      = .ok ([Event.displayCount count, Event.separator,
              Event.invalidModeIndex opts.modeIndex] ++ listingFrom catalogOf ids 0, 0) ∧
    ∀ ev ∈ [Event.displayCount count, Event.separator,
              Event.invalidModeIndex opts.modeIndex] ++ listingFrom catalogOf ids 0,
      ev.isConfigureCall = false := by
  have hlen : count = ids.length := by
    have h := (copyDisplayIDs_ok sys 0 0 _ henum).1
    simpa using h
  have hloop := printDisplayModesLoop_listing sys opts.lowRes catalogOf ids [] hall
  simp only [List.nil_append, List.length_nil] at hloop
  rw [← hlen] at hloop
  constructor
  · rw [main_invalid_index sys argv ids count opts catalog henum hparse hcat hge, hloop]
    rfl
  · intro ev hev
    simp only [List.mem_append, List.mem_cons, List.mem_nil_iff, or_false] at hev
    rcases hev with (h | h | h) | h
    · subst h; rfl
    · subst h; rfl
    · subst h; rfl
    · exact printDisplayModesLoop_isConfigureCall sys ids opts.lowRes count 0 _ hloop ev h

/-- Witness of C8: two modes and `-m 5`. -/
theorem main_invalid_index_lists_all_witness :
    main exampleSys [Opt.m 5]
      = .ok ([Event.displayCount 1, Event.separator, Event.invalidModeIndex 5,
              Event.separator, Event.displayHeader 0, Event.displayID 7, Event.modeCount 2,
              Event.tableHeading, Event.modeLine 0 1920 1080, Event.modeLine 1 1280 720], 0) :=
  (main_invalid_index_lists_all exampleSys [Opt.m 5] [7] 1
    { ID := 7, modeIndex := 5, lowRes := false } exampleModes (fun _ => exampleModes)
    rfl rfl rfl (by decide) (fun _ _ => rfl)).1

/-- The handle `dspx_GetDisplayModeAtIndex_lifetime` returns is the one
`dspx_GetDisplayModeAtIndex` returns. -/
theorem getDisplayModeAtIndex_lifetime_handle (sys : Subsystem) (displayID : CGDirectDisplayID)
    (flag : Bool) (i : Int) :
    (dspx_GetDisplayModeAtIndex_lifetime sys displayID flag i).map
        (fun r => r.map BorrowedMode.mode)
      = dspx_GetDisplayModeAtIndex sys displayID flag i := by
  simp only [dspx_GetDisplayModeAtIndex_lifetime, dspx_GetDisplayModeAtIndex, bind,
    Except.bind, pure, Except.pure]
  cases hc : CFArrayGetCount (dspx_CopyDisplayModes sys displayID flag) with
  | error f => rfl
  | ok count =>
    by_cases hge : i ≥ (count : Int)
    · simp only [hge, if_true]
      rfl
    · simp only [hge, if_false]
      cases CFArrayGetValueAtIndex (dspx_CopyDisplayModes sys displayID flag) i <;> rfl

/-- Every handle `dspx_GetDisplayModeAtIndex_lifetime` returns has had its
owning array released. -/
theorem getDisplayModeAtIndex_lifetime_released (sys : Subsystem)
    (displayID : CGDirectDisplayID) (flag : Bool) (i : Int) (h : BorrowedMode)
    (hret : dspx_GetDisplayModeAtIndex_lifetime sys displayID flag i = .ok (some h)) :
    h.ownerReleased = true := by
  simp only [dspx_GetDisplayModeAtIndex_lifetime, bind, Except.bind, pure, Except.pure]
    at hret
  cases hc : CFArrayGetCount (dspx_CopyDisplayModes sys displayID flag) with
  | error f => simp [hc] at hret
  | ok count =>
    simp only [hc] at hret
    by_cases hge : i ≥ (count : Int)
    · simp [hge] at hret
    · simp only [hge, if_false] at hret
      cases hv : CFArrayGetValueAtIndex (dspx_CopyDisplayModes sys displayID flag) i with
      | error f => simp [hv] at hret
      | ok mode =>
        simp only [hv, Except.ok.injEq, Option.some.injEq] at hret
        rw [← hret]

/-- For every index `n` with `0 <= n < count` of the selected display's
catalog, the run reads the width of the mode through a handle whose array was
released at line 165. -/
theorem main_lifetime_valid_index (sys : Subsystem) (argv : List Opt)
    (ids : List CGDirectDisplayID) (count : Nat) (opts : displix_settings)
    (catalog : List CGDisplayModeRef) (n : Nat)
    (henum : dspx_CopyDisplayIDs sys (some 0) (some 0)
      = .ok { displays := ids, displayCount := some count, error := some 0 })
    (hparse : parseOptions ids count (defaultSettings sys.CGMainDisplayID) argv = .ok opts)
    (hcat : dspx_CopyDisplayModes sys opts.ID opts.lowRes = some catalog)
    (hidx : opts.modeIndex = n) (hn : n < catalog.length) :
    main_lifetime sys argv = .error (.releasedHandle (catalog.get ⟨n, hn⟩).ref) := by
  have h : opts.modeIndex ≥ 0 := by omega
  have hget : dspx_GetDisplayModeAtIndex_lifetime sys opts.ID opts.lowRes opts.modeIndex
      = .ok (some { mode := catalog.get ⟨n, hn⟩, ownerReleased := true }) := by
    rw [hidx]
    simp only [dspx_GetDisplayModeAtIndex_lifetime, hcat, CFArrayGetCount]
    show (if (n : Int) ≥ (catalog.length : Int) then _ else _) = _
    have h1 : ¬ ((n : Int) ≥ (catalog.length : Int)) := by omega
    rw [if_neg h1]
    have h2 : ¬ ((n : Int) < 0) := by omega
    simp [CFArrayGetValueAtIndex, h2, List.getElem?_eq_getElem hn, bind, Except.bind,
      pure, Except.pure]
  simp only [main_lifetime, henum, bind, Except.bind, Option.getD_some, ne_eq,
    not_true_eq_false, if_false, hparse, h, if_true, hget, pure, Except.pure,
    CGDisplayModeGetWidth]

/-- A run of `main_lifetime` that ends without a fault is the run of `main`. -/
theorem main_lifetime_ok (sys : Subsystem) (argv : List Opt) (r : List Event × Int)
    (hrun : main_lifetime sys argv = .ok r) : main sys argv = .ok r := by
  unfold main_lifetime at hrun
  unfold main
  cases hE : dspx_CopyDisplayIDs sys (some 0) (some 0) with
  | error f => simp [hE, bind, Except.bind] at hrun
  | ok c =>
    simp only [hE, bind, Except.bind] at hrun ⊢
    by_cases herr : c.error.getD 0 = 0
    · simp only [herr, ne_eq, not_true_eq_false, if_false] at hrun ⊢
      cases hP : parseOptions c.displays (c.displayCount.getD 0)
          (defaultSettings sys.CGMainDisplayID) argv with
      | error f => simp [hP, pure, Except.pure] at hrun
      | ok opts =>
        simp only [hP] at hrun ⊢
        by_cases hidx : opts.modeIndex ≥ 0
        · simp only [hidx, if_true] at hrun ⊢
          have hmap := getDisplayModeAtIndex_lifetime_handle sys opts.ID opts.lowRes
            opts.modeIndex
          cases hG : dspx_GetDisplayModeAtIndex_lifetime sys opts.ID opts.lowRes
              opts.modeIndex with
          | error f => simp [hG, pure, Except.pure] at hrun
          | ok found =>
            rw [hG] at hmap
            cases found with
            | none =>
              simp only [Except.map, Option.map] at hmap
              simp only [hG] at hrun
              rw [← hmap]
              exact hrun
            | some b =>
              have hrel := getDisplayModeAtIndex_lifetime_released sys opts.ID opts.lowRes
                opts.modeIndex b hG
              simp [hG, pure, Except.pure, CGDisplayModeGetWidth, hrel] at hrun
        · simp only [hidx, if_false] at hrun ⊢
          exact hrun
    · simp only [herr, ne_eq, not_false_eq_true, if_true] at hrun ⊢
      exact hrun

/-- C9, evaluated on the scenario of the specification, modes
`[(1920,1080),(1280,720)]` and `-m 1`: the handle of the 1280 x 720 mode
(`ref = 101`) comes back from `dspx_GetDisplayModeAtIndex` with its array
already released, and the read of its width at line 104 is a read through a
released handle; no mode line is printed from a valid mode and the configurator
is not reached with one. -/
theorem main_lifetime_reads_released_handle :
    dspx_GetDisplayModeAtIndex_lifetime exampleSys 7 false 1
      = .ok (some { mode := { ref := 101, width := 1280, height := 720 },
                    ownerReleased := true }) ∧
    main_lifetime exampleSys [Opt.m 1] = .error (.releasedHandle 101) :=
  ⟨rfl, rfl⟩

/-- C10: in every run of `main` that reaches the call of
`dspx_ConfigureDisplayWithMode`, the error variable handed over holds `0`; the
`Failed to set display mode` diagnostic is emitted if and only if some phase
returned a non-zero code, and it is emitted once, with the code of the first
failing phase. -/
theorem main_failure_diagnostic (sys : Subsystem) (argv : List Opt) (trace : List Event)
    (code : Int) (d : CGDirectDisplayID) (m : CGDisplayModeRef) (e : Option CGError)
    (hrun : main sys argv = .ok (trace, code))
    (hcall : Event.configureDisplayWithMode d m e ∈ trace) :
    e = some 0 ∧
    ((∃ c, Event.failedToSetDisplayMode c ∈ trace)
      ↔ (sys.beginStatus ≠ 0 ∨ sys.configureStatus ≠ 0 ∨ sys.completeStatus ≠ 0)) ∧
    trace.filter Event.isFailure
      = (match firstFailingCode sys with
         | none => []
         | some c => [Event.failedToSetDisplayMode c]) := by
  obtain ⟨he, hfilter⟩ := main_configure_error_entry sys argv trace code d m e hrun hcall
  refine ⟨he, ?_, hfilter⟩
  have hmem : (∃ c, Event.failedToSetDisplayMode c ∈ trace)
      ↔ trace.filter Event.isFailure ≠ [] := by
    constructor
    · rintro ⟨c, hc⟩ hnil
      have : Event.failedToSetDisplayMode c ∈ trace.filter Event.isFailure :=
        List.mem_filter.mpr ⟨hc, rfl⟩
      rw [hnil] at this
      cases this
    · intro hne
      obtain ⟨ev, hev⟩ := List.exists_mem_of_ne_nil _ hne
      obtain ⟨hin, hfail⟩ := List.mem_filter.mp hev
      cases ev <;> simp [Event.isFailure] at hfail
      exact ⟨_, hin⟩
  rw [hmem, hfilter]
  have hnone := firstFailingCode_eq_none_iff sys
  cases hf : firstFailingCode sys with
  | none =>
    rw [hf] at hnone
    have h3 := hnone.mp rfl
    simp [h3.1, h3.2.1, h3.2.2]
  | some c =>
    rw [hf] at hnone
    have h3 : ¬ (sys.beginStatus = 0 ∧ sys.configureStatus = 0 ∧ sys.completeStatus = 0) :=
      fun h => by cases hnone.mpr h
    simp only [ne_eq, List.cons_ne_nil, not_false_eq_true, true_iff]
    by_contra hcon
    push_neg at hcon
    exact h3 hcon

/-- Witness of C10: with `CGBeginDisplayConfiguration` returning `1001`, the run
`-m 0` hands over `0` and prints the diagnostic once, with code `1001`. -/
theorem main_failure_diagnostic_witness :
    main beginFailsSys [Opt.m 0] = .ok (beginFailsTrace, 0) ∧
    Event.configureDisplayWithMode 7 { ref := 100, width := 1920, height := 1080 } (some 0)
      ∈ beginFailsTrace ∧
    ((∃ c, Event.failedToSetDisplayMode c ∈ beginFailsTrace)
      ↔ (beginFailsSys.beginStatus ≠ 0 ∨ beginFailsSys.configureStatus ≠ 0
          ∨ beginFailsSys.completeStatus ≠ 0)) ∧
    beginFailsTrace.filter Event.isFailure = [Event.failedToSetDisplayMode 1001] :=
  have hcall : Event.configureDisplayWithMode 7 { ref := 100, width := 1920, height := 1080 }
      (some 0) ∈ beginFailsTrace := by decide
  ⟨rfl, hcall,
    (main_failure_diagnostic beginFailsSys [Opt.m 0] beginFailsTrace 0 7 _ (some 0) rfl
      hcall).2⟩

end Displix
